import Mathlib

/-!
# Verification of `best/admin.py`

A shallow embedding of the admin module of the `best` repository:
role-scoped querysets, foreign-key choice restriction, permission-gated
actions/filters, and the CSV export action.

The ORM model classes (`best/models.py`) are not part of the sources under
review; their record shapes and relations are modelled from the
specification (§3 DATA MODEL) and from the field accesses performed by
`admin.py`.  Rows are plain records with `Nat` primary keys; foreign keys
are stored as the referenced row's primary key; a database is a record of
row lists; ORM lookups become `find?` over those lists, and a dangling
foreign key (no matching row) makes the enclosing operation return `none`,
modelling the framework exception that a failed related-object access
raises.
-/

namespace Best

/-- Modelled from the spec: `School` entity (only its identity matters here). -/
structure School where
  id : Nat
deriving DecidableEq, Repr

/-- Modelled from the spec: `Course` with a `code` (printed in the export). -/
structure Course where
  id : Nat
  code : String
deriving DecidableEq, Repr

/-- Modelled from the spec: `Section` belongs to a Course and a School and
carries the `year_code` and `semester_code` printed in the export. -/
structure SectionRec where
  id : Nat
  course : Nat
  school : Nat
  year_code : String
  semester_code : String
deriving DecidableEq, Repr

/-- Modelled from the spec: a user account of the host framework, with the
superuser flag, granted permission names, and the name fields printed in
the export.  `has_perm` is true for superusers for every permission, as in
the host framework. -/
structure UserAccount where
  id : Nat
  is_superuser : Bool
  perms : List String
  first_name : String
  last_name : String
deriving DecidableEq, Repr

/-- Modelled from the spec: `Instructor` is tied to one user account and
belongs to a School. -/
structure Instructor where
  id : Nat
  user : Nat
  school : Nat
deriving DecidableEq, Repr

/-- Modelled from the spec: `Student` belongs to a School and has the
`osis_number` printed in the export. -/
structure Student where
  id : Nat
  osis_number : String
  school : Nat
deriving DecidableEq, Repr

/-- Modelled from the spec: `Group` belongs to a Section and an Instructor. -/
structure Group where
  id : Nat
  «section» : Nat
  instructor : Nat
deriving DecidableEq, Repr

/-- Modelled from the spec: `GroupStudent` is a membership row linking one
Group and one Student; like every plain ORM record it has its own primary
key `id`, distinct from the `student` foreign key it carries. -/
structure GroupStudent where
  id : Nat
  group : Nat
  student : Nat
deriving DecidableEq, Repr

/-- Modelled from the spec: `LearningTarget` with a `code`. -/
structure LearningTarget where
  id : Nat
  code : String
deriving DecidableEq, Repr

/-- Modelled from the spec: `Plan` belongs to an Instructor, references an
optional structured LearningTarget or a free-text alternate, and carries
the numeric fields printed in the export. -/
structure Plan where
  id : Nat
  instructor : Nat
  learning_target : Option Nat
  alt_learning_target : String
  dosage : Nat
  exit_ticket_denominator : Nat
  homework_denominator : Nat
deriving DecidableEq, Repr

/-- Modelled from the spec: `Report` belongs to a Group and a Plan, with a
date, a week number and the `exported` flag. -/
structure Report where
  id : Nat
  group : Nat
  plan : Nat
  date : String
  week : Nat
  exported : Bool
deriving DecidableEq, Repr

/-- Modelled from the spec: `ReportStudent` holds one student's data within
one Report.  `attendance` and `homework_effort` are stored as their display
labels (the admin only ever prints their `get_..._display()` form);
`quiz` is an optional textual value, absent (`none`) or empty (`some ""`)
when no quiz result was recorded. -/
structure ReportStudent where
  id : Nat
  report : Nat
  student : Nat
  attendance : String
  exit_ticket : String
  homework_effort : String
  homework_accuracy : String
  quiz : Option String
deriving DecidableEq, Repr

/-- The database: one list of rows per model. -/
structure DB where
  schools : List School
  courses : List Course
  sections : List SectionRec
  users : List UserAccount
  instructors : List Instructor
  students : List Student
  groups : List Group
  groupStudents : List GroupStudent
  learningTargets : List LearningTarget
  plans : List Plan
  reports : List Report
  reportStudents : List ReportStudent
deriving Repr

/-- Resolve a Course foreign key. -/
def findCourse (db : DB) (i : Nat) : Option Course :=
  db.courses.find? (fun c => c.id == i)

/-- Resolve a Section foreign key. -/
def findSection (db : DB) (i : Nat) : Option SectionRec :=
  db.sections.find? (fun s => s.id == i)

/-- Resolve a user-account foreign key. -/
def findUser (db : DB) (i : Nat) : Option UserAccount :=
  db.users.find? (fun u => u.id == i)

/-- Resolve an Instructor foreign key. -/
def findInstructor (db : DB) (i : Nat) : Option Instructor :=
  db.instructors.find? (fun x => x.id == i)

/-- Resolve a Student foreign key. -/
def findStudent (db : DB) (i : Nat) : Option Student :=
  db.students.find? (fun s => s.id == i)

/-- Resolve a Group foreign key. -/
def findGroup (db : DB) (i : Nat) : Option Group :=
  db.groups.find? (fun g => g.id == i)

/-- Resolve a LearningTarget foreign key. -/
def findLearningTarget (db : DB) (i : Nat) : Option LearningTarget :=
  db.learningTargets.find? (fun t => t.id == i)

/-- Resolve a Plan foreign key. -/
def findPlan (db : DB) (i : Nat) : Option Plan :=
  db.plans.find? (fun p => p.id == i)

/-- `request.user.has_perm(p)`: superusers hold every permission, other
users hold exactly the permissions granted to them. -/
def hasPerm (u : UserAccount) (p : String) : Bool :=
  u.is_superuser || u.perms.contains p

/-- `request.user.instructor` / `request.user.instructor_set.first()`:
the (first) Instructor row tied to the user's account, if any. -/
def user_instructor (db : DB) (u : UserAccount) : Option Instructor :=
  (db.instructors.filter (fun i => i.user == u.id)).head?

/-- The ORM join `group__instructor__user` for a Group: the user account id
of the group's instructor, when both foreign keys resolve. -/
def group_owner_user (db : DB) (g : Group) : Option Nat :=
  (findInstructor db g.instructor).map (fun i => i.user)

/-- The ORM join `instructor__user` for a Plan. -/
def plan_owner_user (db : DB) (p : Plan) : Option Nat :=
  (findInstructor db p.instructor).map (fun i => i.user)

/-- The ORM join `group__instructor__user` for a Report. -/
def report_owner_user (db : DB) (r : Report) : Option Nat :=
  (findGroup db r.group).bind (fun g => group_owner_user db g)

/-- The ORM join `group__section__school` for a Report. -/
def report_school (db : DB) (r : Report) : Option Nat :=
  (findGroup db r.group).bind (fun g => (findSection db g.«section»).map (fun s => s.school))

/-- `GroupAdmin.get_queryset`: superusers see all groups, everyone else
sees `qs.filter(instructor__user=request.user)`. -/
def GroupAdmin_get_queryset (db : DB) (u : UserAccount) : List Group :=
  if u.is_superuser then db.groups
  else db.groups.filter (fun g => group_owner_user db g == some u.id)

/-- `PlanAdmin.get_queryset`: superusers see all plans, everyone else sees
`qs.filter(instructor__user=request.user)`. -/
def PlanAdmin_get_queryset (db : DB) (u : UserAccount) : List Plan :=
  if u.is_superuser then db.plans
  else db.plans.filter (fun p => plan_owner_user db p == some u.id)

/-- `ReportAdmin.get_queryset`: superusers see all reports; users holding
`best.export_report` see `qs.filter(group__section__school=request.user.instructor.school)`
(`none` models the exception raised when the user has no instructor row);
everyone else sees `qs.filter(group__instructor__user=request.user)`. -/
def ReportAdmin_get_queryset (db : DB) (u : UserAccount) : Option (List Report) :=
  if u.is_superuser then some db.reports
  else if hasPerm u "best.export_report" then
    match user_instructor db u with
    | some ins => some (db.reports.filter (fun r => report_school db r == some ins.school))
    | none => none
  else some (db.reports.filter (fun r => report_owner_user db r == some u.id))

/-- `GroupAdmin.formfield_for_foreignkey` for the `instructor` field: the
queryset offered as Instructor choices (`Instructor.objects.filter(user=request.user)`
for non-superusers, the unrestricted default otherwise). -/
def GroupAdmin_instructor_choices (db : DB) (u : UserAccount) : List Instructor :=
  if u.is_superuser then db.instructors
  else db.instructors.filter (fun i => i.user == u.id)

/-- `ReportAdmin.formfield_for_foreignkey` for the `group` field: the
queryset offered as Group choices (`Group.objects.filter(instructor__user=request.user)`
for non-superusers, the unrestricted default otherwise). -/
def ReportAdmin_group_choices (db : DB) (u : UserAccount) : List Group :=
  if u.is_superuser then db.groups
  else db.groups.filter (fun g => group_owner_user db g == some u.id)

/-- `group.groupstudent_set.all()`. -/
def groupstudent_set (db : DB) (g : Group) : List GroupStudent :=
  db.groupStudents.filter (fun gs => gs.group == g.id)

/-- `ReportStudentInline.formfield_for_foreignkey` for the `student` field
on behalf of a non-superuser, exactly as written in the source:
`instructor_groups = request.user.instructor_set.first().group_set.all()`
(`none` models the attribute error raised when `first()` yields nothing),
then for each group, for each row of `group.groupstudent_set.all()` it adds
that row's own `id` to `student_ids`, and finally offers
`Student.objects.filter(pk__in=student_ids)`.  Superusers keep the
unrestricted default. -/
def ReportStudentInline_student_choices (db : DB) (u : UserAccount) : Option (List Student) :=
  if u.is_superuser then some db.students
  else
    match user_instructor db u with
    | none => none
    | some ins =>
      let instructor_groups := db.groups.filter (fun g => g.instructor == ins.id)
      let student_ids := instructor_groups.flatMap (fun g => (groupstudent_set db g).map (fun gs => gs.id))
      some (db.students.filter (fun s => student_ids.contains s.id))

/-- Membership of a student in some group owned by a given instructor:
there is a Group of that instructor and a GroupStudent row linking the
group to the student.  This is the ownership scope the inline is intended
to enforce. -/
def studentInInstructorGroups (db : DB) (ins : Instructor) (s : Student) : Bool :=
  db.groups.any (fun g =>
    g.instructor == ins.id &&
    db.groupStudents.any (fun gs => gs.group == g.id && gs.student == s.id))

/-- The class attribute `ReportAdmin.exporter_list_filter`, as filter
descriptors: the `exported` flag, the course filter, the date-range filter. -/
def exporter_list_filter : List String :=
  ["exported", "ReportCourseFilter", "date:DateRangeFilter"]

/-- `ReportAdmin.get_list_filter`: the exporter filters for holders of
`best.export_report`, the empty tuple for everyone else. -/
def ReportAdmin_get_list_filter (u : UserAccount) : List String :=
  if hasPerm u "best.export_report" then exporter_list_filter else []

/-- `ReportAdmin.get_actions`: starting from the actions the framework
offers (`base`), users lacking `best.export_report` have
`export_report_action` removed. -/
def ReportAdmin_get_actions (base : List String) (u : UserAccount) : List String :=
  if hasPerm u "best.export_report" then base
  else base.filter (fun a => a != "export_report_action")

/-- `report_student.get_attendance_display()` (the display label; the
choices mapping lives in the models, which store the label here). -/
def ReportStudent.get_attendance_display (rs : ReportStudent) : String :=
  rs.attendance

/-- `report_student.get_homework_effort_display()`. -/
def ReportStudent.get_homework_effort_display (rs : ReportStudent) : String :=
  rs.homework_effort

/-- Python truthiness of `report_student.quiz and str(report_student.quiz)`:
false when the value is absent or the empty string. -/
def quiz_truthy : Option String → Bool
  | none => false
  | some s => s != ""

/-- How the CSV writer renders an optional value: an absent value becomes
the empty cell, a present value is written as is. -/
def optCell : Option String → String
  | none => ""
  | some s => s

/-- `report.reportstudent_set.all()`. -/
def reportstudent_set (db : DB) (r : Report) : List ReportStudent :=
  db.reportStudents.filter (fun rs => rs.report == r.id)

/-- The CSV header row written by `export_report_action`. -/
def export_header : List String :=
  ["OSIS #", "Course", "Fiscal/Schol Year", "Date", "Quarter", "Week", "Attendance",
   "Dosage", "Exit Ticket", "Exit Ticket (Denominator)", "Learning Target Notes",
   "HW Effort", "HW Accuracy", "HW (Denominator)", "Weekly Quiz", "Weekly Quiz",
   "Instructor"]

/-- The learning-target cell of an export row:
`report.plan.learning_target.code if report.plan.learning_target else report.plan.alt_learning_target`.
`none` models the exception a dangling target reference raises. -/
def learning_target_cell (db : DB) (plan : Plan) : Option String :=
  match plan.learning_target with
  | some ltid => (findLearningTarget db ltid).map (fun lt => lt.code)
  | none => some plan.alt_learning_target

/-- The single CSV body row `export_report_action` writes for one
`report_student` of one `report`, cell by cell in source order; `none`
models the exception raised when a related-object access fails. -/
def export_row (db : DB) (report : Report) (report_student : ReportStudent) :
    Option (List String) := do
  let group ← findGroup db report.group
  let sec ← findSection db group.«section»
  let course ← findCourse db sec.course
  let plan ← findPlan db report.plan
  let instructor ← findInstructor db group.instructor
  let iuser ← findUser db instructor.user
  let student ← findStudent db report_student.student
  let lt_cell ← learning_target_cell db plan
  some
    [student.osis_number,
     course.code,
     sec.year_code,
     report.date,
     sec.semester_code,
     toString report.week,
     report_student.get_attendance_display,
     toString plan.dosage,
     report_student.exit_ticket,
     toString plan.exit_ticket_denominator,
     lt_cell,
     report_student.get_homework_effort_display,
     report_student.homework_accuracy,
     toString plan.homework_denominator,
     (if quiz_truthy report_student.quiz then "Yes" else "No"),
     optCell report_student.quiz,
     iuser.first_name ++ " " ++ iuser.last_name]

/-- Map a fallible function over a list, failing as soon as one element
fails (the option-valued `mapM`, written out so its equations are plain). -/
def optMap (f : α → Option β) : List α → Option (List β)
  | [] => some []
  | a :: as => do
    let b ← f a
    let bs ← optMap f as
    some (b :: bs)

/-- The CSV body rows of the export: for each selected report in order, one
row per row of its `reportstudent_set`. -/
def export_body (db : DB) : List Report → Option (List (List String))
  | [] => some []
  | r :: rest => do
    let rows ← optMap (export_row db r) (reportstudent_set db r)
    let rest_rows ← export_body db rest
    some (rows ++ rest_rows)

/-- `queryset.update(exported=True)`: every database report row whose
primary key is among the selected rows' keys gets `exported := true`. -/
def markExported (db : DB) (selected : List Report) : DB :=
  { db with reports :=
      db.reports.map (fun r =>
        if selected.any (fun s => s.id == r.id) then { r with exported := true } else r) }

/-- `queryset.count()` after the update: the number of database report rows
the queryset's primary keys select. -/
def selectedCount (db : DB) (selected : List Report) : Nat :=
  (db.reports.filter (fun r => selected.any (fun s => s.id == r.id))).length

/-- `ReportAdmin.export_report_action` on a selected queryset: the CSV
rows written to the response (header first, then the body), the database
after `queryset.update(exported=True)`, and the confirmation message.
`none` models an exception while building a row. -/
def export_report_action (db : DB) (selected : List Report) :
    Option (List (List String) × DB × String) := do
  let body ← export_body db selected
  some (export_header :: body,
        markExported db selected,
        toString (selectedCount db selected) ++ " report(s) exported")

/-! ## A concrete example database, used by the witnesses -/

/-- Example superuser. -/
def exAda : UserAccount := { id := 1, is_superuser := true, perms := [], first_name := "Ada", last_name := "Admin" }

/-- Example exporter: not a superuser, holds `best.export_report`. -/
def exEve : UserAccount := { id := 2, is_superuser := false, perms := ["best.export_report"], first_name := "Eve", last_name := "Exporter" }

/-- Example instructor ("BETA") user: no special rights. -/
def exBen : UserAccount := { id := 3, is_superuser := false, perms := [], first_name := "Ben", last_name := "Beta" }

/-- Example non-superuser with no Instructor row at all. -/
def exNia : UserAccount := { id := 4, is_superuser := false, perms := [], first_name := "Nia", last_name := "None" }

/-- Example second instructor user at the other school. -/
def exOli : UserAccount := { id := 5, is_superuser := false, perms := [], first_name := "Oli", last_name := "Other" }

/-- Eve's instructor row, at school 1. -/
def exInsEve : Instructor := { id := 2, user := 2, school := 1 }

/-- Ben's instructor row, at school 1. -/
def exInsBen : Instructor := { id := 3, user := 3, school := 1 }

/-- Oli's instructor row, at school 2. -/
def exInsOli : Instructor := { id := 5, user := 5, school := 2 }

/-- A student of school 1; member of Ben's group. -/
def exStudent1 : Student := { id := 1, osis_number := "S100", school := 1 }

/-- A second student, member of no group. -/
def exStudent2 : Student := { id := 2, osis_number := "S200", school := 1 }

/-- A student whose primary key happens to equal the `GroupStudent`
membership row's primary key; member of no group. -/
def exStudent10 : Student := { id := 10, osis_number := "S999", school := 2 }

/-- Ben's group, in section 1 (school 1). -/
def exGroup1 : Group := { id := 1, «section» := 1, instructor := 3 }

/-- Oli's group, in section 2 (school 2). -/
def exGroup2 : Group := { id := 2, «section» := 2, instructor := 5 }

/-- The membership row putting student 1 in group 1; its own pk is 10. -/
def exGS : GroupStudent := { id := 10, group := 1, student := 1 }

/-- A report of Ben's group, with a plan that has a structured target. -/
def exReport1 : Report := { id := 1, group := 1, plan := 1, date := "2025-01-01", week := 1, exported := false }

/-- A report of Oli's group, with a plan that has only a free-text target. -/
def exReport2 : Report := { id := 2, group := 2, plan := 2, date := "2025-01-02", week := 2, exported := false }

/-- A per-student row with a quiz value. -/
def exRS1 : ReportStudent :=
  { id := 1, report := 1, student := 1, attendance := "Present", exit_ticket := "3",
    homework_effort := "High", homework_accuracy := "90", quiz := some "7" }

/-- A per-student row with no quiz value. -/
def exRS2 : ReportStudent :=
  { id := 2, report := 1, student := 2, attendance := "Absent", exit_ticket := "0",
    homework_effort := "Low", homework_accuracy := "10", quiz := none }

/-- A per-student row on report 2 whose quiz value is the empty string. -/
def exRS3 : ReportStudent :=
  { id := 3, report := 2, student := 1, attendance := "Present", exit_ticket := "2",
    homework_effort := "Mid", homework_accuracy := "50", quiz := some "" }

/-- The example database. -/
def exDb : DB :=
  { schools := [{ id := 1 }, { id := 2 }],
    courses := [{ id := 1, code := "ALG" }],
    sections :=
      [{ id := 1, course := 1, school := 1, year_code := "FY25", semester_code := "Q1" },
       { id := 2, course := 1, school := 2, year_code := "FY25", semester_code := "Q2" }],
    users := [exAda, exEve, exBen, exNia, exOli],
    instructors := [exInsEve, exInsBen, exInsOli],
    students := [exStudent1, exStudent2, exStudent10],
    groups := [exGroup1, exGroup2],
    groupStudents := [exGS],
    learningTargets := [{ id := 1, code := "LT-1" }],
    plans :=
      [{ id := 1, instructor := 3, learning_target := some 1, alt_learning_target := "alt1",
         dosage := 3, exit_ticket_denominator := 5, homework_denominator := 10 },
       { id := 2, instructor := 5, learning_target := none, alt_learning_target := "ALT-FREE",
         dosage := 2, exit_ticket_denominator := 4, homework_denominator := 8 }],
    reports := [exReport1, exReport2],
    reportStudents := [exRS1, exRS2, exRS3] }

/-! ## Claims -/

/-- C5: for every non-superuser user, the Group admin list queryset
contains exactly the Groups whose instructor is the requesting user, and
the Plan admin list queryset contains exactly the Plans whose instructor
is the requesting user; neither queryset consults permissions, so the
export permission does not widen Group or Plan visibility. -/
theorem GroupPlanAdmin_owner_scoped (db : DB) (u : UserAccount)
    (hsu : u.is_superuser = false) :
    (∀ g, g ∈ GroupAdmin_get_queryset db u ↔
      g ∈ db.groups ∧ group_owner_user db g = some u.id) ∧
    (∀ p, p ∈ PlanAdmin_get_queryset db u ↔
      p ∈ db.plans ∧ plan_owner_user db p = some u.id) ∧
    (∀ ps, GroupAdmin_get_queryset db { u with perms := ps } = GroupAdmin_get_queryset db u ∧
      PlanAdmin_get_queryset db { u with perms := ps } = PlanAdmin_get_queryset db u) := by
  refine ⟨fun g => ?_, fun p => ?_, fun ps => ⟨rfl, rfl⟩⟩ <;>
    simp [GroupAdmin_get_queryset, PlanAdmin_get_queryset, hsu, List.mem_filter]

/-- C5 witness: the instructor user Ben of the example database. -/
theorem GroupPlanAdmin_owner_scoped_witness :
    (∀ g, g ∈ GroupAdmin_get_queryset exDb exBen ↔
      g ∈ exDb.groups ∧ group_owner_user exDb g = some exBen.id) ∧
    (∀ p, p ∈ PlanAdmin_get_queryset exDb exBen ↔
      p ∈ exDb.plans ∧ plan_owner_user exDb p = some exBen.id) ∧
    (∀ ps, GroupAdmin_get_queryset exDb { exBen with perms := ps } = GroupAdmin_get_queryset exDb exBen ∧
      PlanAdmin_get_queryset exDb { exBen with perms := ps } = PlanAdmin_get_queryset exDb exBen) :=
  GroupPlanAdmin_owner_scoped exDb exBen rfl

/-- C6: for a non-superuser, the Instructor choices on the Group form are
exactly the instructor rows tied to the requesting user's account, and the
Group choices on the Report form are exactly the groups whose instructor is
the requesting user; for a superuser both choice sets are unrestricted. -/
theorem formfield_choices_owner_scoped (db : DB) (u : UserAccount) :
    (u.is_superuser = false →
      (∀ i, i ∈ GroupAdmin_instructor_choices db u ↔ i ∈ db.instructors ∧ i.user = u.id) ∧
      (∀ g, g ∈ ReportAdmin_group_choices db u ↔
        g ∈ db.groups ∧ group_owner_user db g = some u.id)) ∧
    (u.is_superuser = true →
      GroupAdmin_instructor_choices db u = db.instructors ∧
      ReportAdmin_group_choices db u = db.groups) := by
  constructor
  · intro hsu
    refine ⟨fun i => ?_, fun g => ?_⟩ <;>
      simp [GroupAdmin_instructor_choices, ReportAdmin_group_choices, hsu, List.mem_filter]
  · intro hsu
    constructor <;> simp [GroupAdmin_instructor_choices, ReportAdmin_group_choices, hsu]

/-- C6 witness: both branches at concrete users of the example database. -/
theorem formfield_choices_owner_scoped_witness :
    ((∀ i, i ∈ GroupAdmin_instructor_choices exDb exBen ↔
        i ∈ exDb.instructors ∧ i.user = exBen.id) ∧
      (∀ g, g ∈ ReportAdmin_group_choices exDb exBen ↔
        g ∈ exDb.groups ∧ group_owner_user exDb g = some exBen.id)) ∧
    (GroupAdmin_instructor_choices exDb exAda = exDb.instructors ∧
      ReportAdmin_group_choices exDb exAda = exDb.groups) :=
  ⟨(formfield_choices_owner_scoped exDb exBen).1 rfl,
   (formfield_choices_owner_scoped exDb exAda).2 rfl⟩

/-- C8: the export action is available exactly to holders of the export
permission (whenever the framework offers it at all), and the report list
filters are the exporter filter set exactly for permission holders, the
empty tuple otherwise. -/
theorem ReportAdmin_actions_filters_gated (base : List String) (u : UserAccount)
    (hbase : "export_report_action" ∈ base) :
    ("export_report_action" ∈ ReportAdmin_get_actions base u ↔
      hasPerm u "best.export_report" = true) ∧
    (hasPerm u "best.export_report" = true →
      ReportAdmin_get_list_filter u = exporter_list_filter) ∧
    (hasPerm u "best.export_report" = false →
      ReportAdmin_get_list_filter u = []) := by
  refine ⟨?_, fun hp => by simp [ReportAdmin_get_list_filter, hp],
    fun hp => by simp [ReportAdmin_get_list_filter, hp]⟩
  unfold ReportAdmin_get_actions
  cases hp : hasPerm u "best.export_report" with
  | true => simpa using hbase
  | false => simp [List.mem_filter]

/-- C8 witness: the exporter Eve and the plain instructor Ben. -/
theorem ReportAdmin_actions_filters_gated_witness :
    (("export_report_action" ∈
        ReportAdmin_get_actions ["delete_selected", "export_report_action"] exEve ↔
      hasPerm exEve "best.export_report" = true) ∧
      (hasPerm exEve "best.export_report" = true →
        ReportAdmin_get_list_filter exEve = exporter_list_filter) ∧
      (hasPerm exEve "best.export_report" = false →
        ReportAdmin_get_list_filter exEve = [])) ∧
    (("export_report_action" ∈
        ReportAdmin_get_actions ["delete_selected", "export_report_action"] exBen ↔
      hasPerm exBen "best.export_report" = true) ∧
      (hasPerm exBen "best.export_report" = true →
        ReportAdmin_get_list_filter exBen = exporter_list_filter) ∧
      (hasPerm exBen "best.export_report" = false →
        ReportAdmin_get_list_filter exBen = [])) :=
  ⟨ReportAdmin_actions_filters_gated _ exEve (by simp),
   ReportAdmin_actions_filters_gated _ exBen (by simp)⟩

/-- C10: building the Student choices of the ReportStudent inline for a
non-superuser whose account has no Instructor row fails (the `first()`
lookup yields nothing and the attribute access on it raises, modelled by
`none`) rather than returning an empty — or any — choice list. -/
theorem ReportStudentInline_requires_instructor (db : DB) (u : UserAccount)
    (hsu : u.is_superuser = false) (hni : user_instructor db u = none) :
    ReportStudentInline_student_choices db u = none ∧
    ∀ l, ReportStudentInline_student_choices db u ≠ some l := by
  have h : ReportStudentInline_student_choices db u = none := by
    simp [ReportStudentInline_student_choices, hsu, hni]
  exact ⟨h, fun l hl => by simp [h] at hl⟩

/-- C10 witness: the user Nia of the example database has no instructor
row, and the choice construction indeed fails for them. -/
theorem ReportStudentInline_requires_instructor_witness :
    ReportStudentInline_student_choices exDb exNia = none ∧
    ∀ l, ReportStudentInline_student_choices exDb exNia ≠ some l :=
  ReportStudentInline_requires_instructor exDb exNia rfl (by decide)

/-- C1: on the Report admin list, a superuser sees every report; a
non-superuser holding the export permission (with instructor row `ins`)
sees exactly the reports whose group's section's school is `ins.school`;
every other user sees exactly the reports whose group's instructor is the
requesting user. -/
theorem ReportAdmin_get_queryset_role_scoped (db : DB) (u : UserAccount) (ins : Instructor) :
    (u.is_superuser = true → ReportAdmin_get_queryset db u = some db.reports) ∧
    (u.is_superuser = false → hasPerm u "best.export_report" = true →
      user_instructor db u = some ins →
      ∃ l, ReportAdmin_get_queryset db u = some l ∧
        ∀ r, r ∈ l ↔ r ∈ db.reports ∧ report_school db r = some ins.school) ∧
    (hasPerm u "best.export_report" = false →
      ∃ l, ReportAdmin_get_queryset db u = some l ∧
        ∀ r, r ∈ l ↔ r ∈ db.reports ∧ report_owner_user db r = some u.id) := by
  refine ⟨fun hsu => by simp [ReportAdmin_get_queryset, hsu], ?_, ?_⟩
  · intro hsu hp hins
    have hq : ReportAdmin_get_queryset db u =
        some (db.reports.filter (fun r => report_school db r == some ins.school)) := by
      simp [ReportAdmin_get_queryset, hsu, hp, hins]
    exact ⟨_, hq, fun r => by simp [List.mem_filter]⟩
  · intro hp
    have hsu : u.is_superuser = false := by
      cases h : u.is_superuser with
      | false => rfl
      | true => simp [hasPerm, h] at hp
    have hq : ReportAdmin_get_queryset db u =
        some (db.reports.filter (fun r => report_owner_user db r == some u.id)) := by
      simp [ReportAdmin_get_queryset, hsu, hp]
    exact ⟨_, hq, fun r => by simp [List.mem_filter]⟩

/-- C1 witness: all three roles at concrete users of the example
database (superuser Ada, exporter Eve, instructor Ben). -/
theorem ReportAdmin_get_queryset_role_scoped_witness :
    (ReportAdmin_get_queryset exDb exAda = some exDb.reports) ∧
    (∃ l, ReportAdmin_get_queryset exDb exEve = some l ∧
      ∀ r, r ∈ l ↔ r ∈ exDb.reports ∧ report_school exDb r = some exInsEve.school) ∧
    (∃ l, ReportAdmin_get_queryset exDb exBen = some l ∧
      ∀ r, r ∈ l ↔ r ∈ exDb.reports ∧ report_owner_user exDb r = some exBen.id) :=
  ⟨(ReportAdmin_get_queryset_role_scoped exDb exAda exInsEve).1 rfl,
   (ReportAdmin_get_queryset_role_scoped exDb exEve exInsEve).2.1 rfl (by decide) (by decide),
   (ReportAdmin_get_queryset_role_scoped exDb exBen exInsEve).2.2 (by decide)⟩

/-- C3 (code bug): the claimed Student scoping of the ReportStudent inline
fails on the code.  In the example database, Ben's instructor row owns
group 1 containing student 1, yet the choices the code builds for Ben are
exactly the out-of-scope student whose pk equals the membership row's own
pk (10), and exclude student 1: the loop collects `GroupStudent` primary
keys, not `Student` primary keys. -/
theorem ReportStudentInline_student_choices_pk_confusion :
    ReportStudentInline_student_choices exDb exBen = some [exStudent10] ∧
    user_instructor exDb exBen = some exInsBen ∧
    studentInInstructorGroups exDb exInsBen exStudent1 = true ∧
    exStudent1 ∈ exDb.students ∧
    studentInInstructorGroups exDb exInsBen exStudent10 = false := by
  refine ⟨by decide, by decide, by decide, ?_, by decide⟩
  simp [exDb]

/-- C4: in an export row, the has-quiz column (index 14) is `"No"` with an
empty quiz column (index 15) when the per-student row has no quiz value,
and `"Yes"` with that value when it has one. -/
theorem export_row_quiz_cells (db : DB) (r : Report) (rs : ReportStudent)
    (row : List String) (h : export_row db r rs = some row) :
    ((rs.quiz = none ∨ rs.quiz = some "") →
      row.get? 14 = some "No" ∧ row.get? 15 = some (optCell rs.quiz) ∧ optCell rs.quiz = "") ∧
    (∀ q, rs.quiz = some q → q ≠ "" →
      row.get? 14 = some "Yes" ∧ row.get? 15 = some q) := by
  simp only [export_row, Option.bind_eq_some, bind, Option.some.injEq] at h
  obtain ⟨g, hg, s, hs, c, hc, p, hp, i, hi, iu, hiu, st, hst, lt, hlt, hrow⟩ := h
  subst hrow
  constructor
  · rintro (hq | hq) <;> simp [hq, quiz_truthy, optCell]
  · intro q hq hne
    simp [hq, quiz_truthy, optCell, hne]

/-- C4 witness: the example rows with quiz `"7"`, with no quiz, and with an
empty quiz value. -/
theorem export_row_quiz_cells_witness :
    (∃ row, export_row exDb exReport1 exRS1 = some row ∧
      row.get? 14 = some "Yes" ∧ row.get? 15 = some "7") ∧
    (∃ row, export_row exDb exReport1 exRS2 = some row ∧
      row.get? 14 = some "No" ∧ row.get? 15 = some "") ∧
    (∃ row, export_row exDb exReport2 exRS3 = some row ∧
      row.get? 14 = some "No" ∧ row.get? 15 = some "") := by
  refine ⟨⟨_, rfl, ?_⟩, ⟨_, rfl, ?_⟩, ⟨_, rfl, ?_⟩⟩
  · exact (export_row_quiz_cells exDb exReport1 exRS1 _ rfl).2 "7" rfl (by decide)
  · have h := (export_row_quiz_cells exDb exReport1 exRS2 _ rfl).1 (Or.inl rfl)
    exact ⟨h.1, h.2.2 ▸ h.2.1⟩
  · have h := (export_row_quiz_cells exDb exReport2 exRS3 _ rfl).1 (Or.inr rfl)
    exact ⟨h.1, h.2.2 ▸ h.2.1⟩

/-- C7: in an export row, the learning-target column (index 10) holds the
plan's structured learning target's code when one is set, and the plan's
free-text alternate when none is set. -/
theorem export_row_learning_target (db : DB) (r : Report) (rs : ReportStudent)
    (p : Plan) (row : List String)
    (hp : findPlan db r.plan = some p) (h : export_row db r rs = some row) :
    (p.learning_target = none → row.get? 10 = some p.alt_learning_target) ∧
    (∀ ltid lt, p.learning_target = some ltid → findLearningTarget db ltid = some lt →
      row.get? 10 = some lt.code) := by
  simp only [export_row, Option.bind_eq_some, bind, Option.some.injEq] at h
  obtain ⟨g, hg, s, hs, c, hc, p', hp', i, hi, iu, hiu, st, hst, lt, hlt, hrow⟩ := h
  rw [hp] at hp'
  obtain rfl : p = p' := by injection hp'
  subst hrow
  constructor
  · intro hnone
    have hl : lt = p.alt_learning_target := by
      simp [learning_target_cell, hnone] at hlt
      exact hlt.symm
    subst hl
    rfl
  · intro ltid ltrec hsome hfind
    have hl : lt = ltrec.code := by
      simp [learning_target_cell, hsome, hfind] at hlt
      exact hlt.symm
    subst hl
    rfl

/-- C7 witness: report 1's plan has a structured target (`LT-1`), report
2's plan has only the free-text alternate (`ALT-FREE`). -/
theorem export_row_learning_target_witness :
    (∃ row, export_row exDb exReport1 exRS1 = some row ∧ row.get? 10 = some "LT-1") ∧
    (∃ row, export_row exDb exReport2 exRS3 = some row ∧ row.get? 10 = some "ALT-FREE") := by
  constructor
  · exact ⟨_, rfl,
      (export_row_learning_target exDb exReport1 exRS1 _ _ rfl rfl).2 1
        { id := 1, code := "LT-1" } rfl (by decide)⟩
  · exact ⟨_, rfl,
      (export_row_learning_target exDb exReport2 exRS3 _ _ rfl rfl).1 rfl⟩

/-! ## Helper lemmas for the export action -/

theorem optMap_length {α β : Type} (f : α → Option β) :
    ∀ (l : List α) (l' : List β), optMap f l = some l' → l'.length = l.length := by
  intro l
  induction l with
  | nil =>
    intro l' h
    simp only [optMap, Option.some.injEq] at h
    subst h
    rfl
  | cons a as ih =>
    intro l' h
    simp only [optMap, Option.bind_eq_some, bind, Option.some.injEq] at h
    obtain ⟨b, hb, bs, hbs, hl⟩ := h
    subst hl
    simp [ih bs hbs]

theorem export_body_length (db : DB) :
    ∀ (sel : List Report) (body : List (List String)), export_body db sel = some body →
      body.length = (sel.map (fun r => (reportstudent_set db r).length)).sum := by
  intro sel
  induction sel with
  | nil =>
    intro body h
    simp only [export_body, Option.some.injEq] at h
    subst h
    simp
  | cons r rest ih =>
    intro body h
    simp only [export_body, Option.bind_eq_some, bind, Option.some.injEq] at h
    obtain ⟨rows, hrows, rest_rows, hrest, hb⟩ := h
    subst hb
    simp [optMap_length _ _ _ hrows, ih _ hrest]

theorem selectedCount_eq_length (db : DB) (selected : List Report)
    (h2 : (selected.map Report.id).Nodup) (h1 : (db.reports.map Report.id).Nodup)
    (hsub : ∀ s ∈ selected, s ∈ db.reports) :
    selectedCount db selected = selected.length := by
  unfold selectedCount
  have hrn : db.reports.Nodup := List.Nodup.of_map _ h1
  have hsn : selected.Nodup := List.Nodup.of_map _ h2
  have hperm : List.Perm
      (db.reports.filter (fun r => selected.any (fun s => s.id == r.id))) selected := by
    apply List.perm_of_nodup_nodup_toFinset_eq (hrn.filter _) hsn
    ext r
    simp only [List.mem_toFinset, List.mem_filter, List.any_eq_true, beq_iff_eq]
    constructor
    · rintro ⟨hr, s, hs, hsid⟩
      have hsr : s = r := List.inj_on_of_nodup_map h1 (hsub s hs) hr hsid
      exact hsr ▸ hs
    · intro hrsel
      exact ⟨hsub r hrsel, r, hrsel, rfl⟩
  exact hperm.length_eq

theorem markExported_mem_updated (db : DB) (selected : List Report) (r : Report)
    (hsel : r ∈ selected) (hdb : r ∈ db.reports) :
    { r with exported := true } ∈ (markExported db selected).reports := by
  unfold markExported
  simp only [List.mem_map]
  refine ⟨r, hdb, ?_⟩
  have hany : selected.any (fun s => s.id == r.id) = true :=
    List.any_eq_true.mpr ⟨r, hsel, by simp⟩
  simp [hany]

theorem markExported_exported_of_selected (db : DB) (selected : List Report) (r' : Report)
    (hmem : r' ∈ (markExported db selected).reports)
    (hid : selected.any (fun s => s.id == r'.id) = true) :
    r'.exported = true := by
  unfold markExported at hmem
  simp only [List.mem_map] at hmem
  obtain ⟨r0, hr0, heq⟩ := hmem
  by_cases hc : selected.any (fun s => s.id == r0.id) = true
  · rw [if_pos hc] at heq
    subst heq
    rfl
  · rw [if_neg hc] at heq
    subst heq
    exact absurd hid hc

theorem markExported_mem_unselected (db : DB) (selected : List Report) (r : Report)
    (hdb : r ∈ db.reports) (hns : ∀ s ∈ selected, s.id ≠ r.id) :
    r ∈ (markExported db selected).reports := by
  unfold markExported
  simp only [List.mem_map]
  refine ⟨r, hdb, ?_⟩
  have hany : selected.any (fun s => s.id == r.id) = false := by
    simp only [List.any_eq_false, beq_iff_eq]
    exact hns
  simp [hany]

theorem markExported_shape (db : DB) (selected : List Report) (r' : Report)
    (hmem : r' ∈ (markExported db selected).reports) :
    ∃ r, r ∈ db.reports ∧ r'.id = r.id ∧ r'.group = r.group ∧ r'.plan = r.plan ∧
      r'.date = r.date ∧ r'.week = r.week ∧
      (r' = r ∨ (r'.exported = true ∧ selected.any (fun s => s.id == r.id) = true)) := by
  unfold markExported at hmem
  simp only [List.mem_map] at hmem
  obtain ⟨r0, hr0, heq⟩ := hmem
  by_cases hc : selected.any (fun s => s.id == r0.id) = true
  · rw [if_pos hc] at heq
    subst heq
    exact ⟨r0, hr0, rfl, rfl, rfl, rfl, rfl, Or.inr ⟨rfl, hc⟩⟩
  · rw [if_neg hc] at heq
    subst heq
    exact ⟨r0, hr0, rfl, rfl, rfl, rfl, rfl, Or.inl rfl⟩

theorem export_report_action_eq (db : DB) (selected : List Report)
    (rows : List (List String)) (db' : DB) (msg : String)
    (h : export_report_action db selected = some (rows, db', msg)) :
    ∃ body, export_body db selected = some body ∧ rows = export_header :: body ∧
      db' = markExported db selected ∧
      msg = toString (selectedCount db selected) ++ " report(s) exported" := by
  simp only [export_report_action, Option.bind_eq_some, bind, Option.some.injEq,
    Prod.mk.injEq] at h
  obtain ⟨body, hb, hr, hdb, hm⟩ := h
  exact ⟨body, hb, hr.symm, hdb.symm, hm.symm⟩

/-- C2: a successful run of the export action yields one header row plus
exactly one body row per `ReportStudent` row of each selected report, marks
every selected report exported in the resulting database, and reports in
the confirmation message the number of report rows the selection exported
(equal to the number of selected reports whenever the selection comes from
the database and primary keys are unique). -/
theorem export_report_action_rows_and_marks (db : DB) (selected : List Report)
    (rows : List (List String)) (db' : DB) (msg : String)
    (h : export_report_action db selected = some (rows, db', msg)) :
    rows.length = 1 + (selected.map (fun r => (reportstudent_set db r).length)).sum ∧
    (∀ r ∈ selected, r ∈ db.reports → { r with exported := true } ∈ db'.reports) ∧
    (∀ r' ∈ db'.reports, selected.any (fun s => s.id == r'.id) = true → r'.exported = true) ∧
    msg = toString (selectedCount db selected) ++ " report(s) exported" ∧
    ((selected.map Report.id).Nodup → (db.reports.map Report.id).Nodup →
      (∀ s ∈ selected, s ∈ db.reports) → selectedCount db selected = selected.length) := by
  obtain ⟨body, hb, hr, hdb, hm⟩ := export_report_action_eq db selected rows db' msg h
  subst hr hdb hm
  refine ⟨?_, ?_, ?_, rfl, ?_⟩
  · simp [export_body_length db selected body hb, Nat.add_comm]
  · intro r hsel hdbm
    exact markExported_mem_updated db selected r hsel hdbm
  · intro r' hmem hid
    exact markExported_exported_of_selected db selected r' hmem hid
  · intro hn2 hn1 hsub
    exact selectedCount_eq_length db selected hn2 hn1 hsub

/-- C2 witness: exporting both example reports (one with two per-student
rows, one with a single row) yields four CSV rows, marks report 1
exported, and reports a count of 2. -/
theorem export_report_action_rows_and_marks_witness :
    ∃ rows db' msg,
      export_report_action exDb [exReport1, exReport2] = some (rows, db', msg) ∧
      rows.length = 1 + ([exReport1, exReport2].map (fun r => (reportstudent_set exDb r).length)).sum ∧
      { exReport1 with exported := true } ∈ db'.reports ∧
      msg = toString (selectedCount exDb [exReport1, exReport2]) ++ " report(s) exported" ∧
      selectedCount exDb [exReport1, exReport2] = [exReport1, exReport2].length := by
  obtain ⟨hlen, hmark, _, hmsg, hcount⟩ :=
    export_report_action_rows_and_marks exDb [exReport1, exReport2] _ _ _ rfl
  exact ⟨_, _, _, rfl, hlen,
    hmark exReport1 (by simp) (by simp [exDb]), hmsg,
    hcount (by decide) (by decide) (by decide)⟩

/-- C9: the export action mutates nothing but the `exported` field of the
selected report rows: every other table is returned unchanged, every
unselected report row survives unchanged, and every row of the resulting
report table agrees with a source row on every field except possibly
`exported`, which may change only for selected rows. -/
theorem export_report_action_frame (db : DB) (selected : List Report)
    (rows : List (List String)) (db' : DB) (msg : String)
    (h : export_report_action db selected = some (rows, db', msg)) :
    db'.schools = db.schools ∧ db'.courses = db.courses ∧ db'.sections = db.sections ∧
    db'.users = db.users ∧ db'.instructors = db.instructors ∧ db'.students = db.students ∧
    db'.groups = db.groups ∧ db'.groupStudents = db.groupStudents ∧
    db'.learningTargets = db.learningTargets ∧ db'.plans = db.plans ∧
    db'.reportStudents = db.reportStudents ∧
    (∀ r ∈ db.reports, (∀ s ∈ selected, s.id ≠ r.id) → r ∈ db'.reports) ∧
    (∀ r' ∈ db'.reports, ∃ r, r ∈ db.reports ∧ r'.id = r.id ∧ r'.group = r.group ∧
      r'.plan = r.plan ∧ r'.date = r.date ∧ r'.week = r.week ∧
      (r' = r ∨ (r'.exported = true ∧ selected.any (fun s => s.id == r.id) = true))) := by
  obtain ⟨body, hb, hr, hdb, hm⟩ := export_report_action_eq db selected rows db' msg h
  subst hdb
  refine ⟨rfl, rfl, rfl, rfl, rfl, rfl, rfl, rfl, rfl, rfl, rfl, ?_, ?_⟩
  · intro r hdbm hns
    exact markExported_mem_unselected db selected r hdbm hns
  · intro r' hmem
    exact markExported_shape db selected r' hmem

/-- C9 witness: exporting only report 1 leaves every other table of the
example database unchanged and report 2 untouched. -/
theorem export_report_action_frame_witness :
    ∃ rows db' msg,
      export_report_action exDb [exReport1] = some (rows, db', msg) ∧
      db'.students = exDb.students ∧ db'.reportStudents = exDb.reportStudents ∧
      exReport2 ∈ db'.reports := by
  obtain ⟨_, _, _, _, _, hst, _, _, _, _, hrs, hkeep, _⟩ :=
    export_report_action_frame exDb [exReport1] _ _ _ rfl
  exact ⟨_, _, _, rfl, hst, hrs, hkeep exReport2 (by simp [exDb]) (by decide)⟩

end Best
